import Mathlib

/-!
Shallow embedding of `src/index.ts` (a Cloudflare Worker that routes questions
between a RAG pipeline and a general completion pipeline, and keeps a bounded
interaction history in a Durable Object), together with theorems settling the
frozen claims about it.

External services (embedding provider, vector index, completion provider) are
modelled as oracle values passed in explicitly; JavaScript strings are modelled
as Lean `String` (lists of characters), JS numbers occurring as similarity
scores as `ℚ`, and `undefined` as `Option.none`.
-/

namespace AgentsCloudflare

/-- JS `a.includes(b)`: substring containment test, as character lists: `b`
occurs in `a` iff it is a prefix of some suffix of `a`. -/
def includes (s sub : String) : Bool :=
  s.data.tails.any fun suffix => sub.data.isPrefixOf suffix

/-- JS `s.substring(0, n)` (for a nonnegative start of 0): the first `n`
characters of `s`, or all of `s` when it is shorter. -/
def jsSubstring0 (s : String) (n : Nat) : String :=
  ⟨s.data.take n⟩

/-- JS `s.toLowerCase()`, modelled as character-wise lowercasing.  (This is the
ASCII fragment of Unicode lowercasing; every string occurring in the source's
keyword tables and in the claims is handled identically by both.) -/
def jsToLowerCase (s : String) : String :=
  ⟨s.data.map Char.toLower⟩

/-- The RAG-indicating keyword list of `RAGAgent.shouldUseRAG`. -/
def ragKeywords : List String :=
  ["document", "archivo", "información específica", "según el documento",
   "en la base de conocimientos", "qué dice sobre", "buscar información",
   "consultar", "referencias", "fuentes", "datos almacenados"]

/-- The general-conversation keyword list of `RAGAgent.shouldUseRAG`. -/
def generalKeywords : List String :=
  ["hola", "cómo estás", "ayuda general", "explicar conceptos",
   "definir", "cómo funciona", "qué es", "ayúdame a entender"]

/-- `ragKeywords.some(keyword => questionLower.includes(keyword.toLowerCase()))`. -/
def hasRagKeywords (questionLower : String) : Bool :=
  ragKeywords.any fun keyword => includes questionLower (jsToLowerCase keyword)

/-- `generalKeywords.some(keyword => questionLower.includes(keyword.toLowerCase()))`. -/
def hasGeneralKeywords (questionLower : String) : Bool :=
  generalKeywords.any fun keyword => includes questionLower (jsToLowerCase keyword)

/-- `RAGAgent.shouldUseRAG`.  The forced-choice Azure OpenAI call made in the
ambiguous tier is modelled by the oracle `classifier`: `some content` is the
message content extracted from a successful response (after the `|| ""`
fallback), `none` is any failure of that call (non-ok status, network error,
malformed payload), which the source catches and resolves with the length
heuristic.  The function is total: no failure of the oracle escapes. -/
def shouldUseRAG (classifier : Option String) (question : String) : Bool :=
  let questionLower := jsToLowerCase question
  if hasRagKeywords questionLower then true
  else if hasGeneralKeywords questionLower then false
  else
    match classifier with
    | some content => includes (jsToLowerCase content) "rag"
    | none => 20 < questionLower.length

example : shouldUseRAG none "xyz" = false := by decide

example : shouldUseRAG none "Where is the Document about cats?" = true := by decide

/-- A JS value stored in a metadata field: either a string, or some other
defined value, recorded with its `String(..)` rendering and its truthiness
(the source inspects metadata values only through `typeof v === 'string'`,
truthiness tests, and string conversion on join). -/
inductive MetaVal where
  | str (s : String)
  | other (rendering : String) (isTruthy : Bool)
  deriving DecidableEq

/-- JS truthiness of a metadata value: a string is truthy iff nonempty. -/
def MetaVal.truthy : MetaVal → Bool
  | .str s => !(s = "")
  | .other _ t => t

/-- The `String(..)` rendering used by `Array.prototype.join`. -/
def MetaVal.render : MetaVal → String
  | .str s => s
  | .other r _ => r

/-- Metadata of a vector record; each field may be absent (undefined). -/
structure VMetadata where
  content : Option MetaVal
  title : Option MetaVal
  deriving DecidableEq

/-- One match returned by `VECTORIZE.query`: id, similarity score, and
optional metadata (present when `returnMetadata` was requested and the record
had metadata). -/
structure VMatch where
  id : String
  score : ℚ
  metadata : Option VMetadata
  deriving DecidableEq

/-- JS `match.metadata?.content`: undefined when the metadata object or the
field is absent. -/
def metaContent (m : VMatch) : Option MetaVal :=
  m.metadata.bind fun md => md.content

/-- JS `match.metadata?.title`. -/
def metaTitle (m : VMatch) : Option MetaVal :=
  m.metadata.bind fun md => md.title

/-- The matches surviving the similarity filter of `processWithRAG` step 3:
`matches.matches.filter(match => match.score > 0.7)`. -/
def survivingMatches (ms : List VMatch) : List VMatch :=
  ms.filter fun m => (7 : ℚ) / 10 < m.score

/-- The context blob of `processWithRAG` step 3: contents of the surviving
matches, dropped when falsy (undefined or empty), joined with a blank-line
separator. -/
def contextOf (ms : List VMatch) : String :=
  String.intercalate "\n\n"
    ((((survivingMatches ms).map metaContent).filter fun c =>
        c.elim false MetaVal.truthy).map fun c => c.elim "" MetaVal.render)

/-- One entry of the `sources` array built by `processWithRAG`:
`content` is `substring(0, 200) + "..."` of the metadata content when that is
a string, and undefined otherwise. -/
structure SourceEntry where
  id : String
  score : ℚ
  title : Option MetaVal
  content : Option String
  deriving DecidableEq

/-- The per-match source entry of `processWithRAG`. -/
def sourceOf (m : VMatch) : SourceEntry :=
  { id := m.id
    score := m.score
    title := metaTitle m
    content :=
      match metaContent m with
      | some (.str s) => some (jsSubstring0 s 200 ++ "...")
      | _ => none }

/-- `matches.matches.map(match => ({...}))` of `processWithRAG`. -/
def sourcesOf (ms : List VMatch) : List SourceEntry :=
  ms.map sourceOf

/-- The result object returned by `processWithRAG` and `processGeneral`. -/
structure RagResult where
  question : String
  answer : String
  usedRAG : Bool
  sources : List SourceEntry
  context_used : Bool
  deriving DecidableEq

/-- Oracles for the external calls made by `processWithRAG`: the embedding
response `data` field (`none` models an absent field), the vector index query
(`Except.error` models a thrown failure of the `VECTORIZE.query` call), and
the completion call (`Except.error e` models a failure with message `e`,
`Except.ok c` a response whose extracted message content is `c`, before the
`|| "No pude generar una respuesta."` fallback). -/
structure RagEnv where
  embedData : Option (List (List ℚ))
  query : Except String (List VMatch)
  completion : Except String String

/-- Outcome of one `processWithRAG` call: the returned value or the thrown
`RAG processing failed: ...` error, plus whether the completion provider was
actually called. -/
structure RagCall where
  result : Except String RagResult
  completionCalled : Bool

/-- The fixed answer used when no context clears the threshold. -/
def noRelevantInfoMsg : String :=
  "No pude encontrar información relevante en la base de conocimientos."

/-- The fallback answer when the completion content is falsy. -/
def emptyCompletionMsg : String := "No pude generar una respuesta."

/-- `RAGAgent.processWithRAG`.  Steps: embedding (fails when `data` is absent
or empty), vector query, context assembly, conditional completion call (only
when the context blob is nonempty), and result assembly; any failure is
rethrown as `RAG processing failed: ...`. -/
def processWithRAG (env : RagEnv) (question : String) : RagCall :=
  match env.embedData with
  | none =>
      { result := .error "RAG processing failed: Failed to generate query embedding"
        completionCalled := false }
  | some data =>
    if data.length = 0 then
      { result := .error "RAG processing failed: Failed to generate query embedding"
        completionCalled := false }
    else
      match env.query with
      | .error e =>
          { result := .error ("RAG processing failed: " ++ e)
            completionCalled := false }
      | .ok ms =>
        let context := contextOf ms
        if 0 < context.length then
          match env.completion with
          | .error e =>
              { result := .error ("RAG processing failed: " ++ e)
                completionCalled := true }
          | .ok c =>
              { result := .ok
                  { question := question
                    answer := if c = "" then emptyCompletionMsg else c
                    usedRAG := true
                    sources := sourcesOf ms
                    context_used := true }
                completionCalled := true }
        else
          { result := .ok
              { question := question
                answer := noRelevantInfoMsg
                usedRAG := true
                sources := sourcesOf ms
                context_used := false }
            completionCalled := false }

/-- `RAGAgent.processGeneral`: one completion call; failure is rethrown as
`General processing failed: ...`. -/
def processGeneral (completion : Except String String) (question : String) :
    Except String RagResult :=
  match completion with
  | .error e => .error ("General processing failed: " ++ e)
  | .ok c =>
      .ok
        { question := question
          answer := if c = "" then emptyCompletionMsg else c
          usedRAG := false
          sources := []
          context_used := false }

/-- One interaction record of the Durable Object history
(`{question, answer, usedRAG, timestamp}`). -/
structure InteractionRecord where
  question : String
  answer : String
  usedRAG : Bool
  timestamp : String
  deriving DecidableEq

/-- The `/save` route of `MyAgent.fetch`: push the new record, and when the
list now exceeds 100 entries keep only the last 100 (`history.slice(-100)`);
the result is what is written back to storage. -/
def saveRecord (stored : List InteractionRecord) (r : InteractionRecord) :
    List InteractionRecord :=
  let history := stored ++ [r]
  if 100 < history.length then history.drop (history.length - 100) else history

/-- The payload of the `/stats` route of `MyAgent.fetch`. -/
structure StatsResult where
  totalInteractions : Nat
  ragUsage : Nat
  generalUsage : Nat
  ragPercentage : ℤ
  deriving DecidableEq

/-- JS `Math.round` (round half toward positive infinity). -/
def jsRound (x : ℚ) : ℤ := ⌊x + 1 / 2⌋

/-- The `/stats` route of `MyAgent.fetch`: counts by the `usedRAG` flag and a
guarded percentage (`0` when the history is empty). -/
def statsOf (history : List InteractionRecord) : StatsResult :=
  let ragUsage := (history.filter fun item => item.usedRAG).length
  let generalUsage := (history.filter fun item => !item.usedRAG).length
  { totalInteractions := history.length
    ragUsage := ragUsage
    generalUsage := generalUsage
    ragPercentage :=
      if 0 < history.length then
        jsRound ((ragUsage : ℚ) / (history.length : ℚ) * 100)
      else 0 }

/-- The CORS header list attached by the front door. -/
def corsHeaders : List (String × String) :=
  [("Access-Control-Allow-Origin", "*"),
   ("Access-Control-Allow-Methods", "GET, POST, PUT, DELETE, OPTIONS"),
   ("Access-Control-Allow-Headers", "Content-Type")]

/-- The `/chat` request body after JSON destructuring with defaults
(`topK = 3`, `forceRAG = false`); a missing `question` field (undefined) and
an empty question are both falsy and are modelled as `""`. -/
structure ChatBody where
  question : String
  topK : ℚ
  forceRAG : Bool
  deriving DecidableEq

/-- The successful `/chat` response body
(`{...result, agentDecision, timestamp}`). -/
structure ChatResponseBody where
  question : String
  answer : String
  usedRAG : Bool
  sources : List SourceEntry
  context_used : Bool
  agentDecision : String
  timestamp : String
  deriving DecidableEq

/-- The JSON body of a front-door response, for the routes the claims need;
responses of the remaining routes are not modelled. -/
inductive BodyModel where
  | empty
  | errorJson (error : String)
  | errorDetailsJson (error details : String)
  | chatJson (b : ChatResponseBody)
  deriving DecidableEq

/-- A front-door HTTP response: status, header list, body. -/
structure FrontResponse where
  status : Nat
  headers : List (String × String)
  body : BodyModel
  deriving DecidableEq

/-- Outcome of one front-door `fetch` call: the response (`none` on the
routes the model leaves opaque: `/insert`, `/search`, `/agent/...`, `/health`
and the discovery fallback), plus which pipelines and the classifier were
actually invoked while handling it. -/
structure FetchOutcome where
  response : Option FrontResponse
  ragInvoked : Bool
  generalInvoked : Bool
  classifierConsulted : Bool
  deriving DecidableEq

/-- Oracles for the external calls reachable from the front door. -/
structure Oracles where
  classifier : Option String
  rag : RagEnv
  generalCompletion : Except String String

/-- The `/chat` branch of the front door (`path === "/chat" && method ===
"POST"`).  `body` is the outcome of `request.json()` (`Except.error` models a
parse failure, whose message reaches the 500 response); `now` is the timestamp
string.  `forceRAG || await agent.shouldUseRAG(question)` short-circuits, so
the classifier is consulted exactly when `forceRAG` is false. -/
def handleChat (o : Oracles) (now : String) (body : Except String ChatBody) :
    FetchOutcome :=
  match body with
  | .error e =>
      { response := some
          { status := 500, headers := corsHeaders
            body := .errorDetailsJson "Failed to process chat request" e }
        ragInvoked := false, generalInvoked := false, classifierConsulted := false }
  | .ok b =>
    if b.question = "" then
      { response := some
          { status := 400, headers := corsHeaders
            body := .errorJson "Question is required" }
        ragInvoked := false, generalInvoked := false, classifierConsulted := false }
    else
      let consulted := !b.forceRAG
      let useRAG := b.forceRAG || shouldUseRAG o.classifier b.question
      if useRAG then
        match processWithRAG o.rag b.question with
        | { result := .error e, completionCalled := _ } =>
            { response := some
                { status := 500, headers := corsHeaders
                  body := .errorDetailsJson "Failed to process chat request" e }
              ragInvoked := true, generalInvoked := false
              classifierConsulted := consulted }
        | { result := .ok r, completionCalled := _ } =>
            { response := some
                { status := 200, headers := corsHeaders
                  body := .chatJson
                    { question := r.question, answer := r.answer
                      usedRAG := r.usedRAG, sources := r.sources
                      context_used := r.context_used
                      agentDecision := "RAG", timestamp := now } }
              ragInvoked := true, generalInvoked := false
              classifierConsulted := consulted }
      else
        match processGeneral o.generalCompletion b.question with
        | .error e =>
            { response := some
                { status := 500, headers := corsHeaders
                  body := .errorDetailsJson "Failed to process chat request" e }
              ragInvoked := false, generalInvoked := true
              classifierConsulted := consulted }
        | .ok r =>
            { response := some
                { status := 200, headers := corsHeaders
                  body := .chatJson
                    { question := r.question, answer := r.answer
                      usedRAG := r.usedRAG, sources := r.sources
                      context_used := r.context_used
                      agentDecision := "GENERAL", timestamp := now } }
              ragInvoked := false, generalInvoked := true
              classifierConsulted := consulted }

/-- JS `s.startsWith(pre)`: prefix test on the character lists. -/
def jsStartsWith (s pre : String) : Bool :=
  pre.data.isPrefixOf s.data

/-- An inbound front-door request: method, path, and the outcome of parsing
its JSON body as a `/chat` body (consulted only on the `/chat` route). -/
structure FrontRequest where
  method : String
  path : String
  chatBody : Except String ChatBody

/-- The front door (`export default fetch`), in source order: the `/favicon`
check first (404, empty body, no extra headers), then the `OPTIONS`
short-circuit (CORS headers only, empty body, default status 200), then the
`/chat` route; the remaining routes are left opaque (`response := none`) —
none of them invokes a pipeline or the classifier. -/
def fetchHandler (o : Oracles) (now : String) (req : FrontRequest) :
    FetchOutcome :=
  if jsStartsWith req.path "/favicon" then
    { response := some { status := 404, headers := [], body := .empty }
      ragInvoked := false, generalInvoked := false, classifierConsulted := false }
  else if req.method = "OPTIONS" then
    { response := some { status := 200, headers := corsHeaders, body := .empty }
      ragInvoked := false, generalInvoked := false, classifierConsulted := false }
  else if req.path = "/chat" ∧ req.method = "POST" then
    handleChat o now req.chatBody
  else
    { response := none
      ragInvoked := false, generalInvoked := false, classifierConsulted := false }

/-! ## Theorems settling the claims -/

/-- A concrete record, used in closed statements about the history store. -/
def sampleRecordA : InteractionRecord :=
  { question := "q", answer := "a", usedRAG := true, timestamp := "t" }

/-- A second concrete record, distinct from `sampleRecordA`. -/
def sampleRecordB : InteractionRecord :=
  { question := "q2", answer := "a2", usedRAG := false, timestamp := "t2" }

/-- C3: after every completed save the stored history has length at most 100,
and a save performed when the list already holds 100 records drops the oldest
record and appends the new one at the end (bounded FIFO). -/
theorem save_bounded_fifo (stored : List InteractionRecord)
    (r : InteractionRecord) :
    (saveRecord stored r).length ≤ 100 ∧
      (stored.length = 100 → saveRecord stored r = stored.drop 1 ++ [r]) := by
  constructor
  · unfold saveRecord
    by_cases h : 100 < (stored ++ [r]).length
    · simp only [h, if_true, List.length_drop]
      omega
    · simp only [h, if_false]
      simp only [List.length_append, List.length_singleton] at h ⊢
      omega
  · intro h100
    obtain ⟨a, t, rfl⟩ : ∃ a t, stored = a :: t := by
      cases stored with
      | nil => simp at h100
      | cons a t => exact ⟨a, t, rfl⟩
    have ht : t.length = 99 := by simpa using h100
    simp [saveRecord, ht]

/-- Witness for C3 at a concrete 100-element history. -/
theorem save_bounded_fifo_witness :
    (saveRecord (List.replicate 100 sampleRecordA) sampleRecordB).length ≤ 100 ∧
      saveRecord (List.replicate 100 sampleRecordA) sampleRecordB =
        (List.replicate 100 sampleRecordA).drop 1 ++ [sampleRecordB] := by
  have h := save_bounded_fifo (List.replicate 100 sampleRecordA) sampleRecordB
  exact ⟨h.1, h.2 (by simp)⟩

/-- C9: the stats of an empty history are all zero; in particular the
percentage is produced by the zero-total guard, not by a division. -/
theorem stats_empty_history :
    statsOf [] = { totalInteractions := 0, ragUsage := 0, generalUsage := 0,
                   ragPercentage := 0 } := by
  rfl

/-- C10: for every stored history, `ragUsage + generalUsage =
totalInteractions`: each record falls in exactly one bucket according to its
`usedRAG` flag. -/
theorem stats_counts_partition (history : List InteractionRecord) :
    (statsOf history).ragUsage + (statsOf history).generalUsage =
      (statsOf history).totalInteractions := by
  have key : ∀ l : List InteractionRecord,
      (l.filter fun item => item.usedRAG).length +
        (l.filter fun item => !item.usedRAG).length = l.length := by
    intro l
    induction l with
    | nil => rfl
    | cons a t ih =>
      by_cases ha : a.usedRAG <;> simp [List.filter_cons, ha] <;> omega
  simpa [statsOf] using key history

/-- C6: whenever the forced-choice completion call is actually performed
(the question cleared neither keyword tier) and that call fails, the
classifier still returns a value — RAG exactly when the lower-cased question
is longer than 20 characters. -/
theorem classifier_failure_length_heuristic (question : String)
    (hrag : hasRagKeywords (jsToLowerCase question) = false)
    (hgen : hasGeneralKeywords (jsToLowerCase question) = false) :
    shouldUseRAG none question =
      decide (20 < (jsToLowerCase question).length) := by
  simp [shouldUseRAG, hrag, hgen]

/-- Witness for C6: a short keyword-free question resolves to GENERAL. -/
theorem classifier_failure_length_heuristic_witness :
    shouldUseRAG none "zzz" = decide (20 < (jsToLowerCase "zzz").length) :=
  classifier_failure_length_heuristic "zzz" (by decide) (by decide)

/-- C7: a question containing any RAG keyword (case-insensitively, i.e. after
lower-casing) is classified RAG, whatever else it contains and whatever the
forced-choice oracle would have said. -/
theorem rag_keyword_forces_rag (classifier : Option String)
    (question keyword : String) (hk : keyword ∈ ragKeywords)
    (hin : includes (jsToLowerCase question) (jsToLowerCase keyword) = true) :
    shouldUseRAG classifier question = true := by
  have h : hasRagKeywords (jsToLowerCase question) = true :=
    List.any_eq_true.mpr ⟨keyword, hk, hin⟩
  simp [shouldUseRAG, h]

/-- Witness for C7: a question containing a general keyword and the RAG
keyword `document` is still classified RAG. -/
theorem rag_keyword_forces_rag_witness :
    shouldUseRAG none "Hola, qué es este Document?" = true :=
  rag_keyword_forces_rag none "Hola, qué es este Document?" "document"
    (by decide) (by decide)

/-- A concrete low-score match, used in closed statements about the RAG
pipeline. -/
def lowScoreMatch : VMatch :=
  { id := "m-low", score := 1 / 2
    metadata := some { content := some (.str "secret"), title := none } }

/-- C4: a match whose score is at most 0.7 is excluded from the match list
the context blob is built from (so its content never reaches the blob), yet
every match — whatever its score — contributes an entry to the returned
sources; moreover the blob depends only on the surviving matches. -/
theorem low_score_excluded_from_context (ms : List VMatch) (m : VMatch)
    (hm : m ∈ ms) :
    (m.score ≤ 7 / 10 → m ∉ survivingMatches ms) ∧
      sourceOf m ∈ sourcesOf ms ∧
      contextOf ms = contextOf (survivingMatches ms) := by
  refine ⟨?_, ?_, ?_⟩
  · intro hs hmem
    have h := (List.mem_filter.mp hmem).2
    rw [decide_eq_true_eq] at h
    exact absurd h (not_lt.mpr hs)
  · exact List.mem_map_of_mem sourceOf hm
  · have hidem : survivingMatches (survivingMatches ms) = survivingMatches ms := by
      simp [survivingMatches, List.filter_filter]
    unfold contextOf
    rw [hidem]

/-- Witness for C4 at a one-element match list whose score misses the
threshold. -/
theorem low_score_excluded_from_context_witness :
    (lowScoreMatch.score ≤ 7 / 10 →
        lowScoreMatch ∉ survivingMatches [lowScoreMatch]) ∧
      sourceOf lowScoreMatch ∈ sourcesOf [lowScoreMatch] ∧
      contextOf [lowScoreMatch] = contextOf (survivingMatches [lowScoreMatch]) :=
  low_score_excluded_from_context [lowScoreMatch] lowScoreMatch (by simp)

/-- C5: when the embedding and query steps succeed but the context blob is
empty, `processWithRAG` does not call the completion provider and returns the
fixed no-relevant-information answer with `context_used = false`. -/
theorem empty_context_skips_completion (env : RagEnv) (question : String)
    (d : List (List ℚ)) (ms : List VMatch) (hd : env.embedData = some d)
    (hne : d.length ≠ 0) (hq : env.query = .ok ms)
    (hctx : contextOf ms = "") :
    (processWithRAG env question).completionCalled = false ∧
      (processWithRAG env question).result = .ok
        { question := question, answer := noRelevantInfoMsg, usedRAG := true
          sources := sourcesOf ms, context_used := false } := by
  unfold processWithRAG
  rw [hd, hq]
  simp [hne, hctx]

/-- A concrete oracle environment for the RAG pipeline: the embedding
succeeds, the query returns no matches, the completion would fail if it were
ever consulted. -/
def noMatchEnv : RagEnv :=
  { embedData := some [[1]]
    query := .ok []
    completion := .error "never reached" }

/-- Witness for C5: a successful embedding with a query returning no matches
yields the fixed answer without any completion call. -/
theorem empty_context_skips_completion_witness :
    (processWithRAG noMatchEnv "w").completionCalled = false ∧
      (processWithRAG noMatchEnv "w").result = .ok
        { question := "w", answer := noRelevantInfoMsg, usedRAG := true
          sources := sourcesOf [], context_used := false } :=
  empty_context_skips_completion noMatchEnv "w" [[1]] [] rfl (by decide) rfl rfl

/-- A concrete match whose string content is well under 200 characters. -/
def shortContentMatch : VMatch :=
  { id := "m1", score := 9 / 10
    metadata := some { content := some (.str "hi"), title := none } }

/-- A concrete match with no metadata at all. -/
def noMetadataMatch : VMatch :=
  { id := "m2", score := 9 / 10, metadata := none }

/-- C1 counterexample: for a 2-character string content the claim demands the
content verbatim with no ellipsis, but the source entry carries `"hi..."`, not
`"hi"` — `substring(0, 200) + "..."` appends the ellipsis unconditionally. -/
theorem preview_short_content_counterexample :
    (sourceOf shortContentMatch).content = some "hi..." ∧
      (sourceOf shortContentMatch).content ≠ some "hi" := by
  constructor
  · decide
  · decide

/-- C1 as amended: when the metadata content is a string it is cut to its
first 200 characters and always suffixed with an ellipsis — in particular a
content of at most 200 characters is reproduced whole but still gains the
ellipsis; when the content is not a string the field is omitted. -/
theorem preview_truncation_amended (m : VMatch) :
    (∀ s, metaContent m = some (.str s) →
        (sourceOf m).content = some (jsSubstring0 s 200 ++ "...") ∧
          (s.length ≤ 200 → (sourceOf m).content = some (s ++ "..."))) ∧
      ((∀ s, metaContent m ≠ some (.str s)) → (sourceOf m).content = none) := by
  constructor
  · intro s hs
    have h1 : (sourceOf m).content = some (jsSubstring0 s 200 ++ "...") := by
      simp [sourceOf, hs]
    refine ⟨h1, fun hle => ?_⟩
    have hwhole : jsSubstring0 s 200 = s := by
      obtain ⟨data⟩ := s
      simp only [jsSubstring0]
      congr 1
      exact List.take_of_length_le hle
    rw [h1, hwhole]
  · intro h
    match hc : metaContent m with
    | none => simp [sourceOf, hc]
    | some (.str s) => exact absurd hc (h s)
    | some (.other r t) => simp [sourceOf, hc]

/-- Witness for C1 as amended: the short string content gains the ellipsis,
and the match without metadata gets no content field. -/
theorem preview_truncation_amended_witness :
    (sourceOf shortContentMatch).content = some ("hi" ++ "...") ∧
      (sourceOf noMetadataMatch).content = none := by
  constructor
  · exact ((preview_truncation_amended shortContentMatch).1 "hi" rfl).2
      (by decide)
  · exact (preview_truncation_amended noMetadataMatch).2
      (fun s h => Option.noConfusion h)

/-- A concrete oracle assignment under which no external call would succeed;
none of them is reached in the closed statements it appears in. -/
def idleOracles : Oracles :=
  { classifier := none
    rag := { embedData := none, query := .ok [], completion := .error "e" }
    generalCompletion := .error "e" }

/-- C2 counterexample: an `OPTIONS` request to `/favicon.ico` hits the
favicon check first and gets a 404 with no CORS headers, not the claimed 200
CORS short-circuit. -/
theorem options_favicon_counterexample :
    fetchHandler idleOracles "t"
        { method := "OPTIONS", path := "/favicon.ico", chatBody := .error "e" } =
      { response := some { status := 404, headers := [], body := .empty }
        ragInvoked := false, generalInvoked := false
        classifierConsulted := false } ∧
      (fetchHandler idleOracles "t"
          { method := "OPTIONS", path := "/favicon.ico",
            chatBody := .error "e" }).response ≠
        some { status := 200, headers := corsHeaders, body := .empty } := by
  constructor
  · rfl
  · decide

/-- C2 as amended: every `OPTIONS` request whose path does not start with
`/favicon` short-circuits to a 200 response with empty body and exactly the
CORS headers, with no pipeline or classifier activity; `OPTIONS` requests on
`/favicon` paths instead return the favicon 404. -/
theorem options_shortcircuit_amended (o : Oracles) (now : String)
    (req : FrontRequest) (hm : req.method = "OPTIONS")
    (hp : jsStartsWith req.path "/favicon" = false) :
    fetchHandler o now req =
      { response := some
          { status := 200, headers := corsHeaders, body := .empty }
        ragInvoked := false, generalInvoked := false
        classifierConsulted := false } := by
  simp [fetchHandler, hp, hm]

/-- Witness for C2 as amended: `OPTIONS /chat` gets the CORS-only 200. -/
theorem options_shortcircuit_amended_witness :
    fetchHandler idleOracles "t"
        { method := "OPTIONS", path := "/chat", chatBody := .error "e" } =
      { response := some
          { status := 200, headers := corsHeaders, body := .empty }
        ragInvoked := false, generalInvoked := false
        classifierConsulted := false } :=
  options_shortcircuit_amended idleOracles "t"
    { method := "OPTIONS", path := "/chat", chatBody := .error "e" }
    rfl (by decide)

/-- Every value `processWithRAG` returns successfully carries
`usedRAG = true`. -/
theorem processWithRAG_ok_usedRAG (env : RagEnv) (q : String) (r : RagResult)
    (h : (processWithRAG env q).result = .ok r) : r.usedRAG = true := by
  unfold processWithRAG at h
  repeat' split at h
  all_goals try (rw [apply_ite RagCall.result] at h; split at h)
  all_goals try exact Except.noConfusion h
  all_goals (injection h with h; subst h; rfl)

/-- C8: a `POST /chat` request with `forceRAG = true` and a nonempty question
invokes the RAG pipeline, never the general pipeline, and never consults the
classifier (the `||` short-circuits); when the pipeline succeeds, the response
is a 200 whose body reports `usedRAG = true` and `agentDecision = "RAG"`. -/
theorem forceRAG_bypasses_classifier (o : Oracles) (now : String)
    (b : ChatBody) (hf : b.forceRAG = true) (hq : b.question ≠ "") :
    (fetchHandler o now
        { method := "POST", path := "/chat", chatBody := .ok b }).ragInvoked
        = true ∧
      (fetchHandler o now
        { method := "POST", path := "/chat",
          chatBody := .ok b }).generalInvoked = false ∧
      (fetchHandler o now
        { method := "POST", path := "/chat",
          chatBody := .ok b }).classifierConsulted = false ∧
      ∀ r, (processWithRAG o.rag b.question).result = .ok r →
        (fetchHandler o now
          { method := "POST", path := "/chat", chatBody := .ok b }).response =
          some { status := 200, headers := corsHeaders
                 body := .chatJson
                   { question := r.question, answer := r.answer
                     usedRAG := true, sources := r.sources
                     context_used := r.context_used
                     agentDecision := "RAG", timestamp := now } } := by
  have hdisp : fetchHandler o now
      { method := "POST", path := "/chat", chatBody := .ok b } =
      handleChat o now (.ok b) := by
    simp [fetchHandler, jsStartsWith]
  rw [hdisp]
  rcases hcall : processWithRAG o.rag b.question with ⟨res, called⟩
  cases res with
  | error e =>
    refine ⟨?_, ?_, ?_, ?_⟩ <;>
      simp_all [handleChat, hq, hf, hcall]
  | ok r0 =>
    have hused : r0.usedRAG = true :=
      processWithRAG_ok_usedRAG o.rag b.question r0 (by rw [hcall])
    refine ⟨?_, ?_, ?_, ?_⟩
    · simp [handleChat, hq, hf, hcall]
    · simp [handleChat, hq, hf, hcall]
    · simp [handleChat, hq, hf, hcall]
    · intro r hr
      injection hr with hr
      subst hr
      simp [handleChat, hq, hf, hcall, hused]

/-- A concrete forced-RAG chat body. -/
def forcedChatBody : ChatBody :=
  { question := "hello", topK := 3, forceRAG := true }

/-- A concrete `POST /chat` request carrying `forcedChatBody`. -/
def forcedChatRequest : FrontRequest :=
  { method := "POST", path := "/chat", chatBody := .ok forcedChatBody }

/-- Witness for C8: a forced-RAG chat request on concrete oracles marks the
RAG pipeline as invoked and the classifier as bypassed. -/
theorem forceRAG_bypasses_classifier_witness :
    (fetchHandler idleOracles "t" forcedChatRequest).ragInvoked = true ∧
      (fetchHandler idleOracles "t" forcedChatRequest).classifierConsulted
        = false := by
  have h := forceRAG_bypasses_classifier idleOracles "t" forcedChatBody
    rfl (by decide)
  exact ⟨h.1, h.2.2.1⟩

end AgentsCloudflare
